import Mathlib

/-!
Shallow embedding of the LegacyNote authentication layer: the auth
controller (register, login, forgotPassword, resetPassword, googleAuth,
verifyEmail, sendVerificationOTP) and the auth middleware (protect,
optionalAuth).

The user collection is a list of `User` documents; `Date.now()` is an
explicit `now : Nat` (milliseconds); the random 6-digit OTP source
`Math.floor(100000 + Math.random() * 900000)` is an explicit `r : Nat`
consumed as `100000 + r % 900000`; library calls that live outside this
code base (bcrypt password comparison, JWT signing and verification,
SHA-256 hashing, SMTP delivery) are passed in as function parameters, with
a Boolean `emailOk` standing for whether the awaited email send resolved
or threw.
-/

/-- A User document as read and written by the controller: the fields of
the referenced model that the handlers touch. Transient fields are
`Option`-valued; `none` models an unset (`undefined`) field. -/
structure User where
  id : Nat
  name : String
  email : String
  password : String
  isEmailVerified : Bool
  emailVerificationOTP : Option String := none
  emailVerificationExpire : Option Nat := none
  resetPasswordToken : Option String := none
  resetPasswordExpire : Option Nat := none
  googleId : Option String := none
deriving Repr, DecidableEq

/-- The JSON payload plus HTTP status of a handler response. Absent JSON
keys are `none`. -/
structure Response where
  status : Nat
  success : Bool
  error : Option String := none
  message : Option String := none
  data : Option String := none
  token : Option String := none
  userId : Option Nat := none
  userName : Option String := none
  userEmail : Option String := none
  verificationNeeded : Option Bool := none
deriving Repr, DecidableEq

/-- Ten minutes in milliseconds: the email-verification OTP lifetime. -/
def MS_10MIN : Nat := 10 * 60 * 1000

/-- Thirty minutes in milliseconds: the password-reset token lifetime. -/
def MS_30MIN : Nat := 30 * 60 * 1000

/-- The 6-digit OTP `Math.floor(100000 + Math.random() * 900000)`, with the
randomness explicit: `r % 900000` ranges over exactly the values the
floored product can take. -/
def genOTP (r : Nat) : String := Nat.repr (100000 + r % 900000)

/-- A fresh document id for `User.create`, distinct from every id in the
collection. -/
def freshId (db : List User) : Nat := (db.map User.id).foldr max 0 + 1

/-- Persisting a modified document (`user.save()`): every stored document
with the same id is replaced by the new value. -/
def saveUser (db : List User) (u : User) : List User :=
  db.map (fun v => if v.id = u.id then u else v)

/-- Model of `User.findById`. -/
def findById (db : List User) (i : Nat) : Option User :=
  db.find? (fun v => v.id == i)

/-- Model of `User.findOne({ email })`. -/
def findByEmail (db : List User) (e : String) : Option User :=
  db.find? (fun v => v.email == e)

/-- The `sendTokenResponse` helper: signs a JWT for the user and replies
with `success`, `token`, the public `user` object and the
`verificationNeeded` flag (defaulting to `false`). -/
def sendTokenResponse (sign : Nat → String) (u : User) (statusCode : Nat)
    (verificationNeeded : Bool) : Response :=
  { status := statusCode, success := true, token := some (sign u.id),
    userId := some u.id, userName := some u.name, userEmail := some u.email,
    verificationNeeded := some verificationNeeded }

/-- POST /api/auth/register. Rejects a duplicate email with 400; otherwise
creates the unverified user, stores a fresh OTP with a 10-minute expiry,
and on a failed verification email clears both OTP fields and replies
500. -/
def register (sign : Nat → String) (db : List User) (now r : Nat)
    (emailOk : Bool) (name email password : String) : List User × Response :=
  match findByEmail db email with
  | some _ =>
    (db, { status := 400, success := false,
           error := some "Email already registered" })
  | none =>
    let u0 : User := { id := freshId db, name := name, email := email,
                       password := password, isEmailVerified := false }
    let u1 := { u0 with emailVerificationOTP := some (genOTP r),
                        emailVerificationExpire := some (now + MS_10MIN) }
    let db2 := saveUser (db ++ [u0]) u1
    if emailOk then
      (db2, sendTokenResponse sign u1 201 true)
    else
      let u2 := { u1 with emailVerificationOTP := none,
                          emailVerificationExpire := none }
      (saveUser db2 u2,
       { status := 500, success := false,
         error := some "Registration initiated but verification email could not be sent. Please try again or contact support." })

/-- POST /api/auth/login. `matchPW u p` stands for the model method
`user.matchPassword(password)` (bcrypt comparison, library code). An
unverified user gets a fresh OTP stored and mailed, but the response is a
200 token response with `verificationNeeded` regardless of whether the
email send succeeded (`emailOk` does not influence the result). -/
def login (sign : Nat → String) (matchPW : User → String → Bool)
    (db : List User) (now r : Nat) (emailOk : Bool)
    (email password : Option String) : List User × Response :=
  match email, password with
  | some e, some p =>
    if e.isEmpty || p.isEmpty then
      (db, { status := 400, success := false,
             error := some "Please provide an email and password" })
    else
      match findByEmail db e with
      | none =>
        (db, { status := 401, success := false,
               error := some "Invalid credentials" })
      | some u =>
        if matchPW u p then
          if u.isEmailVerified then
            (db, sendTokenResponse sign u 200 false)
          else
            let u1 := { u with emailVerificationOTP := some (genOTP r),
                               emailVerificationExpire := some (now + MS_10MIN) }
            (saveUser db u1, sendTokenResponse sign u1 200 true)
        else
          (db, { status := 401, success := false,
                 error := some "Invalid credentials" })
  | none, _ =>
    (db, { status := 400, success := false,
           error := some "Please provide an email and password" })
  | some _, none =>
    (db, { status := 400, success := false,
           error := some "Please provide an email and password" })

/-- POST /api/auth/forgotpassword. `hash` stands for the SHA-256 hex
digest (`crypto.createHash`), `resetToken` for the 20 random bytes in hex.
Stores the digest and a 30-minute expiry; on a failed reset email both
fields are cleared and the reply is 500. -/
def forgotPassword (hash : String → String) (db : List User) (now : Nat)
    (resetToken : String) (emailOk : Bool) (email : String) :
    List User × Response :=
  match findByEmail db email with
  | none =>
    (db, { status := 404, success := false,
           error := some "There is no user with that email" })
  | some u =>
    let u1 := { u with resetPasswordToken := some (hash resetToken),
                       resetPasswordExpire := some (now + MS_30MIN) }
    let db1 := saveUser db u1
    if emailOk then
      (db1, { status := 200, success := true, data := some "Email sent" })
    else
      let u2 := { u1 with resetPasswordToken := none,
                          resetPasswordExpire := none }
      (saveUser db1 u2,
       { status := 500, success := false,
         error := some "Email could not be sent" })

/-- The query predicate of resetPassword:
`{ resetPasswordToken, resetPasswordExpire: { $gt: Date.now() } }`. -/
def resetMatch (hashed : String) (now : Nat) (v : User) : Bool :=
  v.resetPasswordToken == some hashed &&
    (match v.resetPasswordExpire with
     | some e2 => decide (now < e2)
     | none => false)

/-- PUT /api/auth/resetpassword/:resettoken. Hashes the presented token,
looks for an unexpired match, and on success stores the new password,
clears both reset fields and replies with a token response. -/
def resetPassword (sign : Nat → String) (hash : String → String)
    (db : List User) (now : Nat) (resettoken newPassword : String) :
    List User × Response :=
  match db.find? (resetMatch (hash resettoken) now) with
  | none =>
    (db, { status := 400, success := false, error := some "Invalid token" })
  | some u =>
    let u1 := { u with password := newPassword, resetPasswordToken := none,
                       resetPasswordExpire := none }
    (saveUser db u1, sendTokenResponse sign u1 200 false)

/-- POST /api/auth/google. `randomPassword` stands for the generated
`crypto.randomBytes(16).toString(hex)`. A new user is created already
verified; an existing user only gains a `googleId` when it had none. -/
def googleAuth (sign : Nat → String) (db : List User)
    (randomPassword : String) (email name googleId : Option String) :
    List User × Response :=
  match email, name, googleId with
  | some e, some n, some g =>
    if e.isEmpty || n.isEmpty || g.isEmpty then
      (db, { status := 400, success := false,
             error := some "Please provide email, name, and googleId" })
    else
      match findByEmail db e with
      | some u =>
        match u.googleId with
        | none =>
          let u1 := { u with googleId := some g }
          (saveUser db u1, sendTokenResponse sign u1 200 false)
        | some _ => (db, sendTokenResponse sign u 200 false)
      | none =>
        let u : User := { id := freshId db, name := n, email := e,
                          password := randomPassword, isEmailVerified := true,
                          googleId := some g }
        (db ++ [u], sendTokenResponse sign u 200 false)
  | _, _, _ =>
    (db, { status := 400, success := false,
           error := some "Please provide email, name, and googleId" })

/-- The query predicate of verifyEmail: email, OTP and unexpired
`emailVerificationExpire: { $gt: Date.now() }` must all match. -/
def verifyMatch (e o : String) (now : Nat) (v : User) : Bool :=
  v.email == e && v.emailVerificationOTP == some o &&
    (match v.emailVerificationExpire with
     | some e2 => decide (now < e2)
     | none => false)

/-- POST /api/auth/verify-email. On a match the user becomes verified,
both OTP fields are cleared, and the reply carries a fresh token; any
non-match is a 400 with a single error string. -/
def verifyEmail (sign : Nat → String) (db : List User) (now : Nat)
    (email otp : Option String) : List User × Response :=
  match email, otp with
  | some e, some o =>
    if e.isEmpty || o.isEmpty then
      (db, { status := 400, success := false,
             error := some "Please provide email and OTP" })
    else
      match db.find? (verifyMatch e o now) with
      | none =>
        (db, { status := 400, success := false,
               error := some "Invalid or expired OTP" })
      | some u =>
        let u1 := { u with isEmailVerified := true,
                           emailVerificationOTP := none,
                           emailVerificationExpire := none }
        (saveUser db u1,
         { status := 200, success := true,
           message := some "Account created successfully! Email verified.",
           token := some (sign u1.id), userId := some u1.id,
           userName := some u1.name, userEmail := some u1.email })
  | none, _ =>
    (db, { status := 400, success := false,
           error := some "Please provide email and OTP" })
  | some _, none =>
    (db, { status := 400, success := false,
           error := some "Please provide email and OTP" })

/-- POST /api/auth/send-verification-otp: stores a fresh OTP with a
10-minute expiry for an existing user, and on a failed email clears both
fields and replies 500. -/
def sendVerificationOTP (db : List User) (now r : Nat) (emailOk : Bool)
    (email : Option String) : List User × Response :=
  match email with
  | some e =>
    if e.isEmpty then
      (db, { status := 400, success := false,
             error := some "Please provide an email" })
    else
      match findByEmail db e with
      | none =>
        (db, { status := 404, success := false,
               error := some "User not found" })
      | some u =>
        let u1 := { u with emailVerificationOTP := some (genOTP r),
                           emailVerificationExpire := some (now + MS_10MIN) }
        let db1 := saveUser db u1
        if emailOk then
          (db1, { status := 200, success := true,
                  data := some "Verification email sent" })
        else
          let u2 := { u1 with emailVerificationOTP := none,
                              emailVerificationExpire := none }
          (saveUser db1 u2,
           { status := 500, success := false,
             error := some "Email could not be sent. Please check server logs." })
  | none =>
    (db, { status := 400, success := false,
           error := some "Please provide an email" })

/-- JS `split(' ')` over the character list: every single space ends a
piece, empty pieces included, exactly as `authorization.split(' ')`. -/
def splitSpaces : List Char → List Char → List String
  | [], acc => [String.mk acc.reverse]
  | c :: cs, acc =>
    if c = ' ' then String.mk acc.reverse :: splitSpaces cs []
    else splitSpaces cs (c :: acc)

/-- JS `startsWith` over character lists: the first argument is the
pattern looked for at the front of the second. -/
def startsWithChars : List Char → List Char → Bool
  | [], _ => true
  | _ :: _, [] => false
  | p :: ps, c :: cs => p == c && startsWithChars ps cs

/-- The token extraction both middlewares share: an Authorization header
starting with the string Bearer, split on spaces, second piece. `none`
when the header is absent, does not start so, or has no second piece. -/
def extractToken (auth : Option String) : Option String :=
  match auth with
  | some a =>
    if startsWithChars "Bearer".toList a.toList then
      (splitSpaces a.toList []).get? 1
    else none
  | none => none

/-- The outcome of a middleware: an early JSON response, or falling
through to `next()` with the value left in `req.user` (`none` when it was
never set). -/
inductive MwResult where
  | respond (r : Response)
  | proceed (u : Option User)
deriving Repr, DecidableEq

/-- The protect middleware. `verify` stands for
`jwt.verify(token, process.env.JWT_SECRET)`: `some id` on success, `none`
when the library throws. A falsy (missing or empty) token, a failed
verification, and an unknown id each answer 401 without calling the
handler. -/
def protect (verify : String → Option Nat) (db : List User)
    (auth : Option String) : MwResult :=
  match extractToken auth with
  | none =>
    .respond { status := 401, success := false,
               error := some "Not authorized to access this route" }
  | some t =>
    if t.isEmpty then
      .respond { status := 401, success := false,
                 error := some "Not authorized to access this route" }
    else
      match verify t with
      | none =>
        .respond { status := 401, success := false,
                   error := some "Not authorized to access this route" }
      | some i =>
        match findById db i with
        | none =>
          .respond { status := 401, success := false,
                     error := some "User not found" }
        | some u => .proceed (some u)

/-- The optionalAuth middleware: always falls through to `next()`;
`req.user` is populated only when a Bearer token is present, verifies,
and resolves to a stored user (a missing second piece or a thrown
verification is swallowed by the catch). -/
def optionalAuth (verify : String → Option Nat) (db : List User)
    (auth : Option String) : MwResult :=
  match extractToken auth with
  | none => .proceed none
  | some t =>
    match verify t with
    | none => .proceed none
    | some i => .proceed (findById db i)

/-- The transience pairing of the claimed invariant: an OTP is stored only
together with its expiry, a reset digest only together with its expiry. -/
def pairedB (u : User) : Bool :=
  (!u.emailVerificationOTP.isSome || u.emailVerificationExpire.isSome) &&
    (!u.resetPasswordToken.isSome || u.resetPasswordExpire.isSome)

/-- Every stored user document satisfies the pairing. -/
def AllPaired (db : List User) : Prop := ∀ u ∈ db, pairedB u = true

/-- One controller operation on the user collection: the collection after
any handler runs with any inputs and any email outcome. -/
inductive Step : List User → List User → Prop where
  | ofRegister (sign : Nat → String) (db : List User) (now r : Nat)
      (emailOk : Bool) (name email password : String) :
      Step db (register sign db now r emailOk name email password).1
  | ofLogin (sign : Nat → String) (matchPW : User → String → Bool)
      (db : List User) (now r : Nat) (emailOk : Bool)
      (email password : Option String) :
      Step db (login sign matchPW db now r emailOk email password).1
  | ofForgotPassword (hash : String → String) (db : List User) (now : Nat)
      (resetToken : String) (emailOk : Bool) (email : String) :
      Step db (forgotPassword hash db now resetToken emailOk email).1
  | ofResetPassword (sign : Nat → String) (hash : String → String)
      (db : List User) (now : Nat) (resettoken newPassword : String) :
      Step db (resetPassword sign hash db now resettoken newPassword).1
  | ofGoogleAuth (sign : Nat → String) (db : List User)
      (randomPassword : String) (email name googleId : Option String) :
      Step db (googleAuth sign db randomPassword email name googleId).1
  | ofVerifyEmail (sign : Nat → String) (db : List User) (now : Nat)
      (email otp : Option String) :
      Step db (verifyEmail sign db now email otp).1
  | ofSendVerificationOTP (db : List User) (now r : Nat) (emailOk : Bool)
      (email : Option String) :
      Step db (sendVerificationOTP db now r emailOk email).1

/-- Collections reachable from a starting collection through any sequence
of controller operations. -/
def Reachable : List User → List User → Prop := Relation.ReflTransGen Step

/-- Concrete JWT signer for closed evaluations. -/
def csign : Nat → String := fun i => String.append "jwt" (Nat.repr i)

/-- Concrete password comparison for closed evaluations: plain equality
with the stored value. -/
def cmatch : User → String → Bool := fun u p => u.password == p

/-- Concrete SHA-256 stand-in for closed evaluations. -/
def chash : String → String := fun s => String.append "sha" s

/-- Concrete JWT verifier for closed evaluations: accepts one token. -/
def cverify : String → Option Nat := fun t => if t == "goodtoken" then some 1 else none

/-- A concrete stored user: registered but not yet verified. -/
def cuser : User :=
  { id := 1, name := "Alice", email := "alice@x.com", password := "pw123",
    isEmailVerified := false }

/-- A concrete stored user with a verified email. -/
def cuser2 : User :=
  { id := 2, name := "Bob", email := "bob@x.com", password := "pw456",
    isEmailVerified := true }

lemma mem_saveUser {db : List User} {u v : User} (h : v ∈ saveUser db u) :
    v = u ∨ (v ∈ db ∧ v.id ≠ u.id) := by
  unfold saveUser at h
  rcases List.mem_map.mp h with ⟨w, hw, hfw⟩
  by_cases hid : w.id = u.id
  · left
    rw [if_pos hid] at hfw
    exact hfw.symm
  · right
    rw [if_neg hid] at hfw
    subst hfw
    exact ⟨hw, hid⟩

lemma mem_saveUser_self {db : List User} {u u1 : User} (hu : u ∈ db)
    (hid : u.id = u1.id) : u1 ∈ saveUser db u1 := by
  unfold saveUser
  exact List.mem_map.mpr ⟨u, hu, by simp [hid]⟩

lemma find?_saveUser_eq {db : List User} {u u1 : User} {p : User → Bool}
    (hmem : u ∈ db) (hid : u1.id = u.id) (hp : p u1 = true)
    (hother : ∀ v ∈ db, v.id ≠ u.id → p v = false) :
    (saveUser db u1).find? p = some u1 := by
  unfold saveUser
  induction db with
  | nil => cases hmem
  | cons w tl ih =>
    simp only [List.map_cons]
    by_cases hw : w.id = u1.id
    · rw [if_pos hw]
      exact List.find?_cons_of_pos _ hp
    · rw [if_neg hw]
      have hwu : w.id ≠ u.id := fun hc => hw (hc.trans hid.symm)
      rw [List.find?_cons_of_neg _ (by simp [hother w (List.mem_cons_self w tl) hwu])]
      have hmem' : u ∈ tl := by
        rcases List.mem_cons.mp hmem with rfl | h
        · exact absurd rfl hwu
        · exact h
      exact ih hmem' (fun v hv hvid => hother v (List.mem_cons_of_mem w hv) hvid)

lemma find?_saveUser_none {db : List User} {u1 : User} {p : User → Bool}
    (hu1 : p u1 = false)
    (hother : ∀ v ∈ db, v.id ≠ u1.id → p v = false) :
    (saveUser db u1).find? p = none := by
  unfold saveUser
  rw [List.find?_eq_none]
  intro v hv
  rcases List.mem_map.mp hv with ⟨w, hw, hfw⟩
  by_cases hid : w.id = u1.id
  · rw [if_pos hid] at hfw
    subst hfw
    simp [hu1]
  · rw [if_neg hid] at hfw
    subst hfw
    simp [hother w hw hid]

lemma AllPaired_append {db1 db2 : List User} (h1 : AllPaired db1)
    (h2 : AllPaired db2) : AllPaired (db1 ++ db2) := by
  intro u hu
  rcases List.mem_append.mp hu with h | h
  · exact h1 u h
  · exact h2 u h

lemma AllPaired_saveUser {db : List User} {u : User} (hu : pairedB u = true)
    (h : AllPaired db) : AllPaired (saveUser db u) := by
  intro v hv
  rcases mem_saveUser hv with rfl | ⟨hvdb, _⟩
  · exact hu
  · exact h v hvdb

lemma mem_of_findByEmail {db : List User} {e : String} {u : User}
    (h : findByEmail db e = some u) : u ∈ db :=
  List.mem_of_find?_eq_some h

lemma pairedB_of_parts {u : User}
    (h1 : (!u.emailVerificationOTP.isSome || u.emailVerificationExpire.isSome) = true)
    (h2 : (!u.resetPasswordToken.isSome || u.resetPasswordExpire.isSome) = true) :
    pairedB u = true := by
  unfold pairedB
  rw [h1, h2]
  rfl

lemma pairedB_otp {u : User} (h : pairedB u = true) :
    (!u.emailVerificationOTP.isSome || u.emailVerificationExpire.isSome) = true := by
  unfold pairedB at h
  cases ho : (!u.emailVerificationOTP.isSome || u.emailVerificationExpire.isSome) with
  | true => rfl
  | false => rw [ho] at h; simp at h

lemma pairedB_reset {u : User} (h : pairedB u = true) :
    (!u.resetPasswordToken.isSome || u.resetPasswordExpire.isSome) = true := by
  unfold pairedB at h
  cases ho : (!u.resetPasswordToken.isSome || u.resetPasswordExpire.isSome) with
  | true => rfl
  | false => rw [ho] at h; simp at h

lemma allPaired_register (sign : Nat → String) (db : List User) (now r : Nat)
    (emailOk : Bool) (name email password : String) (h : AllPaired db) :
    AllPaired (register sign db now r emailOk name email password).1 := by
  unfold register
  cases hf : findByEmail db email with
  | some u => exact h
  | none =>
    cases emailOk with
    | true =>
      refine AllPaired_saveUser (by rfl) (AllPaired_append h ?_)
      intro v hv
      rw [List.mem_singleton] at hv
      subst hv
      rfl
    | false =>
      refine AllPaired_saveUser (by rfl) (AllPaired_saveUser (by rfl) (AllPaired_append h ?_))
      intro v hv
      rw [List.mem_singleton] at hv
      subst hv
      rfl

lemma allPaired_login (sign : Nat → String) (matchPW : User → String → Bool)
    (db : List User) (now r : Nat) (emailOk : Bool)
    (email password : Option String) (h : AllPaired db) :
    AllPaired (login sign matchPW db now r emailOk email password).1 := by
  unfold login
  cases email with
  | none => exact h
  | some e =>
    cases password with
    | none => exact h
    | some p =>
      by_cases hep : e.isEmpty || p.isEmpty
      · simp only [hep, if_true]
        exact h
      · simp only [hep, if_false]
        cases hf : findByEmail db e with
        | none => exact h
        | some u =>
          by_cases hm : matchPW u p
          · simp only [hm, if_true]
            cases hv : u.isEmailVerified with
            | true => exact h
            | false =>
              exact AllPaired_saveUser
                (pairedB_of_parts rfl (pairedB_reset (u := u) (h u (mem_of_findByEmail hf)))) h
          · simp only [hm, if_false]
            exact h

lemma allPaired_forgotPassword (hash : String → String) (db : List User)
    (now : Nat) (resetToken : String) (emailOk : Bool) (email : String)
    (h : AllPaired db) :
    AllPaired (forgotPassword hash db now resetToken emailOk email).1 := by
  unfold forgotPassword
  cases hf : findByEmail db email with
  | none => exact h
  | some u =>
    have hu := h u (mem_of_findByEmail hf)
    cases emailOk with
    | true =>
      exact AllPaired_saveUser (pairedB_of_parts (pairedB_otp (u := u) hu) rfl) h
    | false =>
      exact AllPaired_saveUser (pairedB_of_parts (pairedB_otp (u := u) hu) rfl)
        (AllPaired_saveUser (pairedB_of_parts (pairedB_otp (u := u) hu) rfl) h)

lemma allPaired_resetPassword (sign : Nat → String) (hash : String → String)
    (db : List User) (now : Nat) (resettoken newPassword : String)
    (h : AllPaired db) :
    AllPaired (resetPassword sign hash db now resettoken newPassword).1 := by
  unfold resetPassword
  cases hf : db.find? (resetMatch (hash resettoken) now) with
  | none => exact h
  | some u =>
    have hu := h u (List.mem_of_find?_eq_some hf)
    exact AllPaired_saveUser (pairedB_of_parts (pairedB_otp (u := u) hu) rfl) h

lemma allPaired_googleAuth (sign : Nat → String) (db : List User)
    (randomPassword : String) (email name googleId : Option String)
    (h : AllPaired db) :
    AllPaired (googleAuth sign db randomPassword email name googleId).1 := by
  unfold googleAuth
  cases email with
  | none => exact h
  | some e =>
    cases name with
    | none => exact h
    | some n =>
      cases googleId with
      | none => exact h
      | some g =>
        by_cases hep : e.isEmpty || n.isEmpty || g.isEmpty
        · simp only [hep, if_true]
          exact h
        · simp only [hep, if_false]
          cases hf : findByEmail db e with
          | some u =>
            have hu := h u (mem_of_findByEmail hf)
            show AllPaired ((match u.googleId with
              | none =>
                (saveUser db { u with googleId := some g },
                 sendTokenResponse sign { u with googleId := some g } 200 false)
              | some _ => (db, sendTokenResponse sign u 200 false)).1)
            cases u.googleId with
            | none =>
              exact AllPaired_saveUser (u := { u with googleId := some g })
                (pairedB_of_parts (pairedB_otp (u := u) hu) (pairedB_reset (u := u) hu)) h
            | some gid => exact h
          | none =>
            refine AllPaired_append h ?_
            intro v hv
            rw [List.mem_singleton] at hv
            subst hv
            rfl

lemma allPaired_verifyEmail (sign : Nat → String) (db : List User) (now : Nat)
    (email otp : Option String) (h : AllPaired db) :
    AllPaired (verifyEmail sign db now email otp).1 := by
  unfold verifyEmail
  cases email with
  | none => exact h
  | some e =>
    cases otp with
    | none => exact h
    | some o =>
      by_cases hep : e.isEmpty || o.isEmpty
      · simp only [hep, if_true]
        exact h
      · simp only [hep, if_false]
        cases hf : db.find? (verifyMatch e o now) with
        | none => exact h
        | some u =>
          have hu := h u (List.mem_of_find?_eq_some hf)
          exact AllPaired_saveUser
            (pairedB_of_parts rfl (pairedB_reset (u := u) hu)) h

lemma allPaired_sendVerificationOTP (db : List User) (now r : Nat)
    (emailOk : Bool) (email : Option String) (h : AllPaired db) :
    AllPaired (sendVerificationOTP db now r emailOk email).1 := by
  unfold sendVerificationOTP
  cases email with
  | none => exact h
  | some e =>
    by_cases hep : e.isEmpty
    · simp only [hep, if_true]
      exact h
    · simp only [hep, if_false]
      cases hf : findByEmail db e with
      | none => exact h
      | some u =>
        have hu := h u (mem_of_findByEmail hf)
        cases emailOk with
        | true =>
          exact AllPaired_saveUser (pairedB_of_parts rfl (pairedB_reset (u := u) hu)) h
        | false =>
          exact AllPaired_saveUser (pairedB_of_parts rfl (pairedB_reset (u := u) hu))
            (AllPaired_saveUser (pairedB_of_parts rfl (pairedB_reset (u := u) hu)) h)

lemma allPaired_step {db db' : List User} (h : AllPaired db) (hs : Step db db') :
    AllPaired db' := by
  cases hs with
  | ofRegister sign now r emailOk name email password =>
      exact allPaired_register _ _ _ _ _ _ _ _ h
  | ofLogin sign matchPW now r emailOk email password =>
      exact allPaired_login _ _ _ _ _ _ _ _ h
  | ofForgotPassword hash now resetToken emailOk email =>
      exact allPaired_forgotPassword _ _ _ _ _ _ h
  | ofResetPassword sign hash now resettoken newPassword =>
      exact allPaired_resetPassword _ _ _ _ _ _ h
  | ofGoogleAuth sign randomPassword email name googleId =>
      exact allPaired_googleAuth _ _ _ _ _ _ h
  | ofVerifyEmail sign now email otp =>
      exact allPaired_verifyEmail _ _ _ _ _ h
  | ofSendVerificationOTP now r emailOk email =>
      exact allPaired_sendVerificationOTP _ _ _ _ _ h

lemma allPaired_reachable {db db' : List User} (h : AllPaired db)
    (hr : Reachable db db') : AllPaired db' := by
  unfold Reachable at hr
  induction hr with
  | refl => exact h
  | tail _ hstep ih => exact allPaired_step ih hstep

/-- C8: a register request whose email already belongs to an existing user
answers 400 with success false and error Email already registered, and the
collection is returned unchanged: no user document is created and no OTP
is issued. -/
theorem claim8_duplicate_email (sign : Nat → String) (db : List User)
    (now r : Nat) (emailOk : Bool) (name email password : String) (u : User)
    (h : findByEmail db email = some u) :
    register sign db now r emailOk name email password =
      (db, { status := 400, success := false,
             error := some "Email already registered" }) := by
  unfold register
  rw [h]

/-- Closed instance of claim8_duplicate_email at a concrete collection. -/
theorem claim8_witness :
    register csign [cuser] 0 0 true "Mallory" "alice@x.com" "pw" =
      ([cuser], { status := 400, success := false,
                  error := some "Email already registered" }) :=
  claim8_duplicate_email csign [cuser] 0 0 true "Mallory" "alice@x.com" "pw"
    cuser (by decide)


/-- C7: protect never invokes the downstream handler on a request whose
Authorization header is absent, malformed, carries a failing token, or an
id matching no user: every early answer is a 401 with success false, and
the middleware proceeds exactly when a nonempty Bearer token verifies to
the id of a stored user, with that user in req.user. -/
theorem claim7_protect (verify : String → Option Nat) (db : List User)
    (auth : Option String) :
    (∀ u : User, protect verify db auth = MwResult.proceed (some u) ↔
       ∃ t i, extractToken auth = some t ∧ t.isEmpty = false ∧
         verify t = some i ∧ findById db i = some u) ∧
    (∀ resp : Response, protect verify db auth = MwResult.respond resp →
       resp.status = 401 ∧ resp.success = false) ∧
    (∀ o : Option User, protect verify db auth = MwResult.proceed o →
       o.isSome = true) := by
  cases he : extractToken auth with
  | none =>
    refine ⟨fun u => by simp [protect, he], fun resp hr => ?_,
            fun o ho => by simp [protect, he] at ho⟩
    have h2 : MwResult.respond
        { status := 401, success := false,
          error := some "Not authorized to access this route" } =
        MwResult.respond resp := by
      rw [← hr]
      simp [protect, he]
    injection h2 with h3
    rw [← h3]
    exact ⟨rfl, rfl⟩
  | some t =>
    cases ht : t.isEmpty with
    | true =>
      refine ⟨fun u => by simp [protect, he, ht], fun resp hr => ?_,
              fun o ho => by simp [protect, he, ht] at ho⟩
      have h2 : MwResult.respond
          { status := 401, success := false,
            error := some "Not authorized to access this route" } =
          MwResult.respond resp := by
        rw [← hr]
        simp [protect, he, ht]
      injection h2 with h3
      rw [← h3]
      exact ⟨rfl, rfl⟩
    | false =>
      cases hv : verify t with
      | none =>
        refine ⟨fun u => by simp [protect, he, ht, hv], fun resp hr => ?_,
                fun o ho => by simp [protect, he, ht, hv] at ho⟩
        have h2 : MwResult.respond
            { status := 401, success := false,
              error := some "Not authorized to access this route" } =
            MwResult.respond resp := by
          rw [← hr]
          simp [protect, he, ht, hv]
        injection h2 with h3
        rw [← h3]
        exact ⟨rfl, rfl⟩
      | some i =>
        cases hfi : findById db i with
        | none =>
          refine ⟨fun u => by simp [protect, he, ht, hv, hfi], fun resp hr => ?_,
                  fun o ho => by simp [protect, he, ht, hv, hfi] at ho⟩
          have h2 : MwResult.respond
              { status := 401, success := false,
                error := some "User not found" } =
              MwResult.respond resp := by
            rw [← hr]
            simp [protect, he, ht, hv, hfi]
          injection h2 with h3
          rw [← h3]
          exact ⟨rfl, rfl⟩
        | some u0 =>
          refine ⟨fun u => ?_, fun resp hr => ?_, fun o ho => ?_⟩
          · constructor
            · intro hp
              have h2 : MwResult.proceed (some u0) = MwResult.proceed (some u) := by
                rw [← hp]
                simp [protect, he, ht, hv, hfi]
              injection h2 with h3
              injection h3 with h4
              exact ⟨t, i, rfl, ht, hv, by rw [hfi, h4]⟩
            · rintro ⟨t2, i2, ht2, hte, hv2, hfi2⟩
              rw [Option.some.injEq] at ht2
              subst ht2
              rw [hv, Option.some.injEq] at hv2
              subst hv2
              rw [hfi, Option.some.injEq] at hfi2
              subst hfi2
              simp [protect, he, ht, hv, hfi]
          · have h2 : MwResult.proceed (some u0) = MwResult.respond resp := by
              rw [← hr]
              simp [protect, he, ht, hv, hfi]
            exact absurd h2 (by simp)
          · have h2 : MwResult.proceed (some u0) = MwResult.proceed o := by
              rw [← ho]
              simp [protect, he, ht, hv, hfi]
            injection h2 with h3
            rw [← h3]
            rfl

/-- Closed instance of claim7_protect: a valid Bearer token proceeds with
the stored user placed in req.user. -/
theorem claim7_witness :
    protect cverify [cuser] (some "Bearer goodtoken") =
      MwResult.proceed (some cuser) :=
  ((claim7_protect cverify [cuser] (some "Bearer goodtoken")).1 cuser).mpr
    ⟨"goodtoken", 1, by decide, by decide, by decide, by decide⟩

/-- C10: optionalAuth always falls through to the handler, never an error
response, and req.user is populated exactly by a verifying Bearer token
that resolves to a stored user; otherwise it is left unset. -/
theorem claim10_optionalAuth (verify : String → Option Nat) (db : List User)
    (auth : Option String) :
    (∃ o : Option User, optionalAuth verify db auth = MwResult.proceed o) ∧
    (∀ resp : Response, optionalAuth verify db auth ≠ MwResult.respond resp) ∧
    (∀ u : User, optionalAuth verify db auth = MwResult.proceed (some u) →
       ∃ t i, extractToken auth = some t ∧ verify t = some i ∧
         findById db i = some u) := by
  cases he : extractToken auth with
  | none =>
    exact ⟨⟨none, by simp [optionalAuth, he]⟩,
           fun resp hr => by simp [optionalAuth, he] at hr,
           fun u hu => by simp [optionalAuth, he] at hu⟩
  | some t =>
    cases hv : verify t with
    | none =>
      exact ⟨⟨none, by simp [optionalAuth, he, hv]⟩,
             fun resp hr => by simp [optionalAuth, he, hv] at hr,
             fun u hu => by simp [optionalAuth, he, hv] at hu⟩
    | some i =>
      refine ⟨⟨findById db i, by simp [optionalAuth, he, hv]⟩,
              fun resp hr => ?_, fun u hu => ⟨t, i, rfl, hv, ?_⟩⟩
      · have h2 : MwResult.proceed (findById db i) = MwResult.respond resp := by
          rw [← hr]
          simp [optionalAuth, he, hv]
        exact absurd h2 (by simp)
      · have h2 : MwResult.proceed (findById db i) = MwResult.proceed (some u) := by
          rw [← hu]
          simp [optionalAuth, he, hv]
        exact MwResult.proceed.inj h2

/-- Closed instance of claim10_optionalAuth: a verifying token resolves to
the stored user, and a failing token still proceeds. -/
theorem claim10_witness :
    (∃ t i, extractToken (some "Bearer goodtoken") = some t ∧
       cverify t = some i ∧ findById [cuser] i = some cuser) ∧
    (∃ o : Option User,
       optionalAuth cverify [cuser] (some "Bearer nonsense") =
         MwResult.proceed o) := by
  constructor
  · exact (claim10_optionalAuth cverify [cuser] (some "Bearer goodtoken")).2.2
      cuser (by decide)
  · exact (claim10_optionalAuth cverify [cuser] (some "Bearer nonsense")).1

lemma resetMatch_elim {hashed : String} {now : Nat} {v : User}
    (h : resetMatch hashed now v = true) :
    v.resetPasswordToken = some hashed ∧
      ∃ e2, v.resetPasswordExpire = some e2 ∧ now < e2 := by
  unfold resetMatch at h
  cases hx : v.resetPasswordExpire with
  | none => rw [hx] at h; simp at h
  | some e2 =>
    rw [hx] at h
    simp at h
    exact ⟨h.1, e2, rfl, h.2⟩

lemma resetMatch_false_of_ne {hashed : String} {now : Nat} {v : User}
    (h : v.resetPasswordToken ≠ some hashed) :
    resetMatch hashed now v = false := by
  unfold resetMatch
  cases hbq : (v.resetPasswordToken == some hashed) with
  | false => rfl
  | true => exact absurd (eq_of_beq hbq) h

lemma verifyMatch_elim {e o : String} {now : Nat} {v : User}
    (h : verifyMatch e o now v = true) :
    v.email = e ∧ v.emailVerificationOTP = some o ∧
      ∃ e2, v.emailVerificationExpire = some e2 ∧ now < e2 := by
  unfold verifyMatch at h
  cases hx : v.emailVerificationExpire with
  | none => rw [hx] at h; simp at h
  | some e2 =>
    rw [hx] at h
    simp at h
    exact ⟨h.1.1, h.1.2, e2, rfl, h.2⟩

/-- C3: a login with an existing email and matching password for a user
whose email is unverified stores a fresh 6-digit OTP (its numeric value
lies between 100000 and 999999) with an expiry 10 minutes past the
current time, and answers 200 with success, a signed token and
verificationNeeded true; the result does not depend on the email outcome
`emailOk`, so the response stands even when the send fails. -/
theorem claim3_unverified_login (sign : Nat → String)
    (matchPW : User → String → Bool) (db : List User) (now r : Nat)
    (emailOk : Bool) (e p : String) (u : User)
    (he : e.isEmpty = false) (hp : p.isEmpty = false)
    (hfind : findByEmail db e = some u) (hpw : matchPW u p = true)
    (hver : u.isEmailVerified = false) :
    login sign matchPW db now r emailOk (some e) (some p) =
      (saveUser db { u with emailVerificationOTP := some (genOTP r),
                            emailVerificationExpire := some (now + 10 * 60 * 1000) },
       sendTokenResponse sign
         { u with emailVerificationOTP := some (genOTP r),
                  emailVerificationExpire := some (now + 10 * 60 * 1000) } 200 true) ∧
    { u with emailVerificationOTP := some (genOTP r),
             emailVerificationExpire := some (now + 10 * 60 * 1000) } ∈
      (login sign matchPW db now r emailOk (some e) (some p)).1 ∧
    (login sign matchPW db now r emailOk (some e) (some p)).2.status = 200 ∧
    (login sign matchPW db now r emailOk (some e) (some p)).2.success = true ∧
    (login sign matchPW db now r emailOk (some e) (some p)).2.token =
      some (sign u.id) ∧
    (login sign matchPW db now r emailOk (some e) (some p)).2.verificationNeeded =
      some true ∧
    genOTP r = Nat.repr (100000 + r % 900000) ∧
    100000 ≤ 100000 + r % 900000 ∧ 100000 + r % 900000 ≤ 999999 := by
  have hL : login sign matchPW db now r emailOk (some e) (some p) =
      (saveUser db { u with emailVerificationOTP := some (genOTP r),
                            emailVerificationExpire := some (now + 10 * 60 * 1000) },
       sendTokenResponse sign
         { u with emailVerificationOTP := some (genOTP r),
                  emailVerificationExpire := some (now + 10 * 60 * 1000) } 200 true) := by
    simp [login, he, hp, hfind, hpw, hver, MS_10MIN]
  have hmod : r % 900000 < 900000 := Nat.mod_lt r (by decide)
  refine ⟨hL, ?_, ?_, ?_, ?_, ?_, rfl, Nat.le_add_right _ _, by omega⟩
  · rw [hL]
    exact mem_saveUser_self (mem_of_findByEmail hfind) rfl
  · rw [hL]
    rfl
  · rw [hL]
    rfl
  · rw [hL]
    rfl
  · rw [hL]
    rfl

/-- Closed instance of claim3_unverified_login: the unverified user logs
in with the right password while the email send fails, and still gets the
200 verification-needed token response with the OTP stored. -/
theorem claim3_witness :
    login csign cmatch [cuser] 0 5 false (some "alice@x.com") (some "pw123") =
      (saveUser [cuser]
         { cuser with emailVerificationOTP := some (genOTP 5),
                      emailVerificationExpire := some (0 + 10 * 60 * 1000) },
       sendTokenResponse csign
         { cuser with emailVerificationOTP := some (genOTP 5),
                      emailVerificationExpire := some (0 + 10 * 60 * 1000) } 200 true) :=
  (claim3_unverified_login csign cmatch [cuser] 0 5 false "alice@x.com" "pw123"
    cuser (by decide) (by decide) (by decide) (by decide) (by decide)).1

/-- C1 as stated is false on the login handler: with a failed email send
the unverified login still answers 200 with success true, and the freshly
stored OTP fields are left set rather than rolled back. -/
theorem claim1_counterexample :
    (login csign cmatch [cuser] 0 7 false (some "alice@x.com") (some "pw123")).2.status = 200 ∧
    (login csign cmatch [cuser] 0 7 false (some "alice@x.com") (some "pw123")).2.success = true ∧
    (login csign cmatch [cuser] 0 7 false (some "alice@x.com") (some "pw123")).1 =
      [{ cuser with emailVerificationOTP := some "100007",
                    emailVerificationExpire := some 600000 }] := by
  decide

/-- C1 amended: on a failed email send, register, forgotPassword and
sendVerificationOTP answer 500 with success false after clearing the
pending fields they had stored, while the unverified-login resend
swallows the failure: it answers 200 with success true and keeps the OTP
fields set. -/
theorem claim1_email_failure_rollback :
    (∀ (sign : Nat → String) (db : List User) (now r : Nat)
       (name email password : String),
       findByEmail db email = none →
       (register sign db now r false name email password).2.status = 500 ∧
       (register sign db now r false name email password).2.success = false ∧
       ∀ v ∈ (register sign db now r false name email password).1,
         v.id = freshId db →
         v.emailVerificationOTP = none ∧ v.emailVerificationExpire = none) ∧
    (∀ (hash : String → String) (db : List User) (now : Nat)
       (rt email : String) (u : User),
       findByEmail db email = some u →
       (forgotPassword hash db now rt false email).2.status = 500 ∧
       (forgotPassword hash db now rt false email).2.success = false ∧
       ∀ v ∈ (forgotPassword hash db now rt false email).1,
         v.id = u.id →
         v.resetPasswordToken = none ∧ v.resetPasswordExpire = none) ∧
    (∀ (db : List User) (now r : Nat) (e : String) (u : User),
       e.isEmpty = false →
       findByEmail db e = some u →
       (sendVerificationOTP db now r false (some e)).2.status = 500 ∧
       (sendVerificationOTP db now r false (some e)).2.success = false ∧
       ∀ v ∈ (sendVerificationOTP db now r false (some e)).1,
         v.id = u.id →
         v.emailVerificationOTP = none ∧ v.emailVerificationExpire = none) ∧
    (∀ (sign : Nat → String) (matchPW : User → String → Bool)
       (db : List User) (now r : Nat) (e p : String) (u : User),
       e.isEmpty = false → p.isEmpty = false →
       findByEmail db e = some u → matchPW u p = true →
       u.isEmailVerified = false →
       (login sign matchPW db now r false (some e) (some p)).2.status = 200 ∧
       (login sign matchPW db now r false (some e) (some p)).2.success = true ∧
       { u with emailVerificationOTP := some (genOTP r),
                emailVerificationExpire := some (now + 10 * 60 * 1000) } ∈
         (login sign matchPW db now r false (some e) (some p)).1) := by
  refine ⟨?_, ?_, ?_, ?_⟩
  · intro sign db now r name email password hf
    refine ⟨by simp [register, hf], by simp [register, hf], ?_⟩
    intro v hv hvid
    simp only [register, hf] at hv
    simp at hv
    rcases mem_saveUser hv with rfl | ⟨hv2, hne⟩
    · exact ⟨rfl, rfl⟩
    · exact absurd hvid hne
  · intro hash db now rt email u hf
    refine ⟨by simp [forgotPassword, hf], by simp [forgotPassword, hf], ?_⟩
    intro v hv hvid
    simp only [forgotPassword, hf] at hv
    simp at hv
    rcases mem_saveUser hv with rfl | ⟨hv2, hne⟩
    · exact ⟨rfl, rfl⟩
    · exact absurd hvid hne
  · intro db now r e u he hf
    refine ⟨by simp [sendVerificationOTP, he, hf], by simp [sendVerificationOTP, he, hf], ?_⟩
    intro v hv hvid
    simp only [sendVerificationOTP, he, hf] at hv
    simp at hv
    rcases mem_saveUser hv with rfl | ⟨hv2, hne⟩
    · exact ⟨rfl, rfl⟩
    · exact absurd hvid hne
  · intro sign matchPW db now r e p u he hp hf hpw hver
    have hL : login sign matchPW db now r false (some e) (some p) =
        (saveUser db { u with emailVerificationOTP := some (genOTP r),
                              emailVerificationExpire := some (now + 10 * 60 * 1000) },
         sendTokenResponse sign
           { u with emailVerificationOTP := some (genOTP r),
                    emailVerificationExpire := some (now + 10 * 60 * 1000) } 200 true) := by
      simp [login, he, hp, hf, hpw, hver, MS_10MIN]
    rw [hL]
    exact ⟨rfl, rfl, mem_saveUser_self (mem_of_findByEmail hf) rfl⟩

/-- Closed instance of claim1_email_failure_rollback: the register
rollback answers 500 and the unverified-login resend answers 200 on the
same failed email outcome. -/
theorem claim1_witness :
    (register csign [] 0 3 false "Carol" "carol@x.com" "pw9").2.status = 500 ∧
    (login csign cmatch [cuser] 0 3 false (some "alice@x.com") (some "pw123")).2.status = 200 :=
  ⟨(claim1_email_failure_rollback.1 csign [] 0 3 "Carol" "carol@x.com" "pw9"
      (by decide)).1,
   (claim1_email_failure_rollback.2.2.2 csign cmatch [cuser] 0 3 "alice@x.com"
      "pw123" cuser (by decide) (by decide) (by decide) (by decide) (by decide)).1⟩

/-- C2 as stated is false for pre-existing users: a Google auth call for
an already-registered unverified user answers 200 yet the stored user
remains unverified (only the googleId is filled in). -/
theorem claim2_counterexample :
    (googleAuth csign [cuser] "rnd" (some "alice@x.com") (some "Alice") (some "gid1")).2.status = 200 ∧
    (googleAuth csign [cuser] "rnd" (some "alice@x.com") (some "Alice") (some "gid1")).2.success = true ∧
    (googleAuth csign [cuser] "rnd" (some "alice@x.com") (some "Alice") (some "gid1")).1 =
      [{ cuser with googleId := some "gid1" }] ∧
    ({ cuser with googleId := some "gid1" } : User).isEmailVerified = false := by
  decide

/-- C2 amended: a successful Google auth answers 200; a user newly created
by the call is stored with isEmailVerified true, while a pre-existing
user keeps its previous isEmailVerified value — the handler only fills in
a missing googleId and never touches the verification flag. -/
theorem claim2_google_verification (sign : Nat → String) (db : List User)
    (randomPassword : String) (e n g : String)
    (he : e.isEmpty = false) (hn : n.isEmpty = false) (hg : g.isEmpty = false) :
    (findByEmail db e = none →
       googleAuth sign db randomPassword (some e) (some n) (some g) =
         (db ++ [{ id := freshId db, name := n, email := e,
                   password := randomPassword, isEmailVerified := true,
                   googleId := some g }],
          sendTokenResponse sign
            { id := freshId db, name := n, email := e,
              password := randomPassword, isEmailVerified := true,
              googleId := some g } 200 false)) ∧
    (∀ u : User, findByEmail db e = some u →
       (googleAuth sign db randomPassword (some e) (some n) (some g)).2.status = 200 ∧
       (googleAuth sign db randomPassword (some e) (some n) (some g)).2.success = true ∧
       ((googleAuth sign db randomPassword (some e) (some n) (some g)).1 = db ∨
        (googleAuth sign db randomPassword (some e) (some n) (some g)).1 =
          saveUser db { u with googleId := some g }) ∧
       ({ u with googleId := some g } : User).isEmailVerified = u.isEmailVerified) := by
  constructor
  · intro hf
    simp [googleAuth, he, hn, hg, hf]
  · intro u hf
    cases hg2 : u.googleId with
    | none =>
      have hG : googleAuth sign db randomPassword (some e) (some n) (some g) =
          (saveUser db { u with googleId := some g },
           sendTokenResponse sign { u with googleId := some g } 200 false) := by
        simp [googleAuth, he, hn, hg, hf, hg2]
      rw [hG]
      exact ⟨rfl, rfl, Or.inr rfl, rfl⟩
    | some gid =>
      have hG : googleAuth sign db randomPassword (some e) (some n) (some g) =
          (db, sendTokenResponse sign u 200 false) := by
        simp [googleAuth, he, hn, hg, hf, hg2]
      rw [hG]
      exact ⟨rfl, rfl, Or.inl rfl, rfl⟩

/-- Closed instance of claim2_google_verification: a pre-existing verified
user goes through Google auth with a 200 and an unchanged flag. -/
theorem claim2_witness :
    (googleAuth csign [cuser2] "rnd" (some "bob@x.com") (some "Bob") (some "g9")).2.status = 200 ∧
    (googleAuth csign [cuser2] "rnd" (some "bob@x.com") (some "Bob") (some "g9")).2.success = true ∧
    ((googleAuth csign [cuser2] "rnd" (some "bob@x.com") (some "Bob") (some "g9")).1 = [cuser2] ∨
     (googleAuth csign [cuser2] "rnd" (some "bob@x.com") (some "Bob") (some "g9")).1 =
       saveUser [cuser2] { cuser2 with googleId := some "g9" }) ∧
    ({ cuser2 with googleId := some "g9" } : User).isEmailVerified = cuser2.isEmailVerified :=
  (claim2_google_verification csign [cuser2] "rnd" "bob@x.com" "Bob" "g9"
    (by decide) (by decide) (by decide)).2 cuser2 (by decide)

/-- C5: forgotPassword stores resetPasswordExpire exactly 30 minutes past
the current time; resetPassword accepts the presented token exactly when
some stored user carries its digest with an expiry strictly beyond the
current time; and a reset attempted strictly more than 30 minutes after
issuance answers 400 Invalid token with the collection unchanged, when no
other user carries the same digest. -/
theorem claim5_reset_expiry :
    (∀ (hash : String → String) (db : List User) (t0 : Nat)
       (rt email : String) (u : User),
       findByEmail db email = some u →
       { u with resetPasswordToken := some (hash rt),
                resetPasswordExpire := some (t0 + 30 * 60 * 1000) } ∈
         (forgotPassword hash db t0 rt true email).1) ∧
    (∀ (sign : Nat → String) (hash : String → String) (db : List User)
       (now : Nat) (rt npw : String),
       (db.find? (resetMatch (hash rt) now) = none →
          resetPassword sign hash db now rt npw =
            (db, { status := 400, success := false,
                   error := some "Invalid token" })) ∧
       (∀ u : User, db.find? (resetMatch (hash rt) now) = some u →
          (resetPassword sign hash db now rt npw).2.status = 200 ∧
          u.resetPasswordToken = some (hash rt) ∧
          ∃ e2, u.resetPasswordExpire = some e2 ∧ now < e2)) ∧
    (∀ (sign : Nat → String) (hash : String → String) (db : List User)
       (t0 t1 : Nat) (rt npw email : String) (u : User),
       findByEmail db email = some u →
       (∀ v ∈ db, v.id ≠ u.id → v.resetPasswordToken ≠ some (hash rt)) →
       t0 + 30 * 60 * 1000 < t1 →
       resetPassword sign hash (forgotPassword hash db t0 rt true email).1 t1 rt npw =
         ((forgotPassword hash db t0 rt true email).1,
          { status := 400, success := false, error := some "Invalid token" })) := by
  refine ⟨?_, ?_, ?_⟩
  · intro hash db t0 rt email u hf
    have h1 : (forgotPassword hash db t0 rt true email).1 =
        saveUser db { u with resetPasswordToken := some (hash rt),
                             resetPasswordExpire := some (t0 + 30 * 60 * 1000) } := by
      simp [forgotPassword, hf, MS_30MIN]
    rw [h1]
    exact mem_saveUser_self (mem_of_findByEmail hf) rfl
  · intro sign hash db now rt npw
    constructor
    · intro hnone
      simp [resetPassword, hnone]
    · intro u hsome
      have hm := resetMatch_elim (List.find?_some hsome)
      refine ⟨?_, hm.1, hm.2⟩
      have hR : resetPassword sign hash db now rt npw =
          (saveUser db { u with password := npw,
                                resetPasswordToken := none,
                                resetPasswordExpire := none },
           sendTokenResponse sign
             { u with password := npw, resetPasswordToken := none,
                      resetPasswordExpire := none } 200 false) := by
        simp [resetPassword, hsome]
      rw [hR]
      rfl
  · intro sign hash db t0 t1 rt npw email u hf hother hlate
    have h1 : (forgotPassword hash db t0 rt true email).1 =
        saveUser db { u with resetPasswordToken := some (hash rt),
                             resetPasswordExpire := some (t0 + 30 * 60 * 1000) } := by
      simp [forgotPassword, hf, MS_30MIN]
    rw [h1]
    have hnone : (saveUser db
        { u with resetPasswordToken := some (hash rt),
                 resetPasswordExpire := some (t0 + 30 * 60 * 1000) }).find?
        (resetMatch (hash rt) t1) = none := by
      apply find?_saveUser_none
      · unfold resetMatch
        simp
        omega
      · intro v hv hvid
        exact resetMatch_false_of_ne (hother v hv hvid)
    simp [resetPassword, hnone]

/-- Closed instance of claim5_reset_expiry: a reset one millisecond past
the 30-minute window is rejected with Invalid token. -/
theorem claim5_witness :
    resetPassword csign chash
        (forgotPassword chash [cuser2] 0 "rawtok" true "bob@x.com").1
        1800001 "rawtok" "newpw" =
      ((forgotPassword chash [cuser2] 0 "rawtok" true "bob@x.com").1,
       { status := 400, success := false, error := some "Invalid token" }) :=
  claim5_reset_expiry.2.2 csign chash [cuser2] 0 1800001 "rawtok" "newpw"
    "bob@x.com" cuser2 (by decide) (by decide) (by decide)

/-- C6: every OTP issued by register, unverified login or the
send-verification-otp handler is stored together with an expiry exactly
10 minutes past the current time, and verify-email accepts an email/OTP
pair exactly when a stored user matches with an unexpired OTP, otherwise
answering 400 Invalid or expired OTP. -/
theorem claim6_otp_expiry :
    (∀ (sign : Nat → String) (db : List User) (now r : Nat)
       (name email password : String),
       findByEmail db email = none →
       ({ id := freshId db, name := name, email := email, password := password,
          isEmailVerified := false, emailVerificationOTP := some (genOTP r),
          emailVerificationExpire := some (now + 10 * 60 * 1000) } : User) ∈
         (register sign db now r true name email password).1) ∧
    (∀ (sign : Nat → String) (matchPW : User → String → Bool)
       (db : List User) (now r : Nat) (e p : String) (u : User),
       e.isEmpty = false → p.isEmpty = false →
       findByEmail db e = some u → matchPW u p = true →
       u.isEmailVerified = false →
       { u with emailVerificationOTP := some (genOTP r),
                emailVerificationExpire := some (now + 10 * 60 * 1000) } ∈
         (login sign matchPW db now r true (some e) (some p)).1) ∧
    (∀ (db : List User) (now r : Nat) (e : String) (u : User),
       e.isEmpty = false → findByEmail db e = some u →
       { u with emailVerificationOTP := some (genOTP r),
                emailVerificationExpire := some (now + 10 * 60 * 1000) } ∈
         (sendVerificationOTP db now r true (some e)).1) ∧
    (∀ (sign : Nat → String) (db : List User) (now : Nat) (e o : String),
       e.isEmpty = false → o.isEmpty = false →
       (db.find? (verifyMatch e o now) = none →
          verifyEmail sign db now (some e) (some o) =
            (db, { status := 400, success := false,
                   error := some "Invalid or expired OTP" })) ∧
       (∀ u : User, db.find? (verifyMatch e o now) = some u →
          (verifyEmail sign db now (some e) (some o)).2.status = 200 ∧
          u.emailVerificationOTP = some o ∧
          ∃ e2, u.emailVerificationExpire = some e2 ∧ now < e2)) := by
  refine ⟨?_, ?_, ?_, ?_⟩
  · intro sign db now r name email password hf
    have hR : (register sign db now r true name email password).1 =
        saveUser (db ++ [{ id := freshId db, name := name, email := email,
                           password := password, isEmailVerified := false }])
          { id := freshId db, name := name, email := email, password := password,
            isEmailVerified := false, emailVerificationOTP := some (genOTP r),
            emailVerificationExpire := some (now + 10 * 60 * 1000) } := by
      simp [register, hf, MS_10MIN]
    rw [hR]
    exact mem_saveUser_self (List.mem_append_right _ (List.mem_singleton.mpr rfl)) rfl
  · intro sign matchPW db now r e p u he hp hf hpw hver
    have hL : (login sign matchPW db now r true (some e) (some p)).1 =
        saveUser db { u with emailVerificationOTP := some (genOTP r),
                             emailVerificationExpire := some (now + 10 * 60 * 1000) } := by
      simp [login, he, hp, hf, hpw, hver, MS_10MIN]
    rw [hL]
    exact mem_saveUser_self (mem_of_findByEmail hf) rfl
  · intro db now r e u he hf
    have hS : (sendVerificationOTP db now r true (some e)).1 =
        saveUser db { u with emailVerificationOTP := some (genOTP r),
                             emailVerificationExpire := some (now + 10 * 60 * 1000) } := by
      simp [sendVerificationOTP, he, hf, MS_10MIN]
    rw [hS]
    exact mem_saveUser_self (mem_of_findByEmail hf) rfl
  · intro sign db now e o he ho
    constructor
    · intro hnone
      simp [verifyEmail, he, ho, hnone]
    · intro u hsome
      have hm := verifyMatch_elim (List.find?_some hsome)
      refine ⟨?_, hm.2.1, hm.2.2⟩
      have hV : verifyEmail sign db now (some e) (some o) =
          (saveUser db { u with isEmailVerified := true,
                                emailVerificationOTP := none,
                                emailVerificationExpire := none },
           { status := 200, success := true,
             message := some "Account created successfully! Email verified.",
             token := some (sign u.id), userId := some u.id,
             userName := some u.name, userEmail := some u.email }) := by
        simp [verifyEmail, he, ho, hsome]
      rw [hV]

/-- Closed instance of claim6_otp_expiry: a freshly registered user is
stored with the 10-minute expiry, and an unknown OTP is answered 400. -/
theorem claim6_witness :
    ({ id := freshId ([] : List User), name := "Dora", email := "dora@x.com",
       password := "pw", isEmailVerified := false,
       emailVerificationOTP := some (genOTP 4),
       emailVerificationExpire := some (100 + 10 * 60 * 1000) } : User) ∈
      (register csign [] 100 4 true "Dora" "dora@x.com" "pw").1 ∧
    verifyEmail csign [cuser] 0 (some "alice@x.com") (some "123456") =
      ([cuser], { status := 400, success := false,
                  error := some "Invalid or expired OTP" }) :=
  ⟨claim6_otp_expiry.1 csign [] 100 4 "Dora" "dora@x.com" "pw" (by decide),
   (claim6_otp_expiry.2.2.2 csign [cuser] 0 "alice@x.com" "123456"
      (by decide) (by decide)).1 (by decide)⟩

/-- C9: forgotPassword saves only the digest of the raw token; hashing
the same raw token inside resetPassword reproduces that digest, so while
the token is unexpired and no other user carries the digest, the user
resetPassword finds is exactly the user forgotPassword prepared, whose
password is then replaced and whose reset fields are cleared. -/
theorem claim9_reset_roundtrip (sign : Nat → String) (hash : String → String)
    (db : List User) (t0 t1 : Nat) (rt npw email : String) (u : User)
    (hf : findByEmail db email = some u)
    (hother : ∀ v ∈ db, v.id ≠ u.id → v.resetPasswordToken ≠ some (hash rt))
    (hfresh : t1 < t0 + 30 * 60 * 1000) :
    ((forgotPassword hash db t0 rt true email).1).find?
        (resetMatch (hash rt) t1) =
      some { u with resetPasswordToken := some (hash rt),
                    resetPasswordExpire := some (t0 + 30 * 60 * 1000) } ∧
    resetPassword sign hash (forgotPassword hash db t0 rt true email).1 t1 rt npw =
      (saveUser (forgotPassword hash db t0 rt true email).1
         { u with password := npw, resetPasswordToken := none,
                  resetPasswordExpire := none },
       sendTokenResponse sign
         { u with password := npw, resetPasswordToken := none,
                  resetPasswordExpire := none } 200 false) := by
  have h1 : (forgotPassword hash db t0 rt true email).1 =
      saveUser db { u with resetPasswordToken := some (hash rt),
                           resetPasswordExpire := some (t0 + 30 * 60 * 1000) } := by
    simp [forgotPassword, hf, MS_30MIN]
  have hmatch : resetMatch (hash rt)  t1
      { u with resetPasswordToken := some (hash rt),
               resetPasswordExpire := some (t0 + 30 * 60 * 1000) } = true := by
    unfold resetMatch
    simp
    omega
  have hfind : (saveUser db
      { u with resetPasswordToken := some (hash rt),
               resetPasswordExpire := some (t0 + 30 * 60 * 1000) }).find?
      (resetMatch (hash rt) t1) =
      some { u with resetPasswordToken := some (hash rt),
                    resetPasswordExpire := some (t0 + 30 * 60 * 1000) } :=
    find?_saveUser_eq (mem_of_findByEmail hf) rfl hmatch
      (fun v hv hvid => resetMatch_false_of_ne (hother v hv hvid))
  constructor
  · rw [h1]
    exact hfind
  · rw [h1]
    simp [resetPassword, hfind]

/-- Closed instance of claim9_reset_roundtrip: the raw token issued to
the stored user redeems within the window and rewrites that same user. -/
theorem claim9_witness :
    resetPassword csign chash
        (forgotPassword chash [cuser2] 0 "tok9" true "bob@x.com").1
        60000 "tok9" "fresh" =
      (saveUser (forgotPassword chash [cuser2] 0 "tok9" true "bob@x.com").1
         { cuser2 with password := "fresh", resetPasswordToken := none,
                       resetPasswordExpire := none },
       sendTokenResponse csign
         { cuser2 with password := "fresh", resetPasswordToken := none,
                       resetPasswordExpire := none } 200 false) :=
  (claim9_reset_roundtrip csign chash [cuser2] 0 60000 "tok9" "fresh"
    "bob@x.com" cuser2 (by decide) (by decide) (by decide)).2

/-- C4 as stated is false: the unverified-login resend is a controller
operation that reaches, in one step from a pairing-respecting state, a
state whose user still holds both OTP fields right after a failed email
send, instead of having them cleared. -/
theorem claim4_counterexample :
    Step [cuser]
      (login csign cmatch [cuser] 100 9 false (some "alice@x.com") (some "pw123")).1 ∧
    (login csign cmatch [cuser] 100 9 false (some "alice@x.com") (some "pw123")).1 =
      [{ cuser with emailVerificationOTP := some "100009",
                    emailVerificationExpire := some 600100 }] :=
  ⟨Step.ofLogin csign cmatch [cuser] 100 9 false (some "alice@x.com") (some "pw123"),
   by decide⟩

/-- C4 amended: in every collection reachable through the controller
operations the transient fields stay paired (an OTP only together with
its expiry, a reset digest only together with its expiry); both OTP
fields are cleared by a successful verification, both reset fields by a
successful password reset, and both pending fields by a failed email send
in register, forgotPassword and sendVerificationOTP — while the
unverified-login resend keeps them set on a failed send. -/
theorem claim4_transient_fields :
    (∀ db db' : List User, AllPaired db → Reachable db db' → AllPaired db') ∧
    (∀ (sign : Nat → String) (db : List User) (now : Nat) (e o : String) (u : User),
       e.isEmpty = false → o.isEmpty = false →
       db.find? (verifyMatch e o now) = some u →
       ∀ v ∈ (verifyEmail sign db now (some e) (some o)).1, v.id = u.id →
         v.emailVerificationOTP = none ∧ v.emailVerificationExpire = none) ∧
    (∀ (sign : Nat → String) (hash : String → String) (db : List User)
       (now : Nat) (rt npw : String) (u : User),
       db.find? (resetMatch (hash rt) now) = some u →
       ∀ v ∈ (resetPassword sign hash db now rt npw).1, v.id = u.id →
         v.resetPasswordToken = none ∧ v.resetPasswordExpire = none) ∧
    (∀ (sign : Nat → String) (db : List User) (now r : Nat)
       (name email password : String),
       findByEmail db email = none →
       ∀ v ∈ (register sign db now r false name email password).1,
         v.id = freshId db →
         v.emailVerificationOTP = none ∧ v.emailVerificationExpire = none) ∧
    (∀ (hash : String → String) (db : List User) (now : Nat)
       (rt email : String) (u : User),
       findByEmail db email = some u →
       ∀ v ∈ (forgotPassword hash db now rt false email).1, v.id = u.id →
         v.resetPasswordToken = none ∧ v.resetPasswordExpire = none) ∧
    (∀ (db : List User) (now r : Nat) (e : String) (u : User),
       e.isEmpty = false → findByEmail db e = some u →
       ∀ v ∈ (sendVerificationOTP db now r false (some e)).1, v.id = u.id →
         v.emailVerificationOTP = none ∧ v.emailVerificationExpire = none) ∧
    (∀ (sign : Nat → String) (matchPW : User → String → Bool)
       (db : List User) (now r : Nat) (e p : String) (u : User),
       e.isEmpty = false → p.isEmpty = false →
       findByEmail db e = some u → matchPW u p = true →
       u.isEmailVerified = false →
       { u with emailVerificationOTP := some (genOTP r),
                emailVerificationExpire := some (now + 10 * 60 * 1000) } ∈
         (login sign matchPW db now r false (some e) (some p)).1) := by
  refine ⟨?_, ?_, ?_, ?_, ?_, ?_, ?_⟩
  · intro db db' h hr
    exact allPaired_reachable h hr
  · intro sign db now e o u he ho hsome v hv hvid
    simp only [verifyEmail, he, ho, hsome] at hv
    simp at hv
    rcases mem_saveUser hv with rfl | ⟨hv2, hne⟩
    · exact ⟨rfl, rfl⟩
    · exact absurd hvid hne
  · intro sign hash db now rt npw u hsome v hv hvid
    simp only [resetPassword, hsome] at hv
    try simp at hv
    rcases mem_saveUser hv with rfl | ⟨hv2, hne⟩
    · exact ⟨rfl, rfl⟩
    · exact absurd hvid hne
  · intro sign db now r name email password hf v hv hvid
    simp only [register, hf] at hv
    simp at hv
    rcases mem_saveUser hv with rfl | ⟨hv2, hne⟩
    · exact ⟨rfl, rfl⟩
    · exact absurd hvid hne
  · intro hash db now rt email u hf v hv hvid
    simp only [forgotPassword, hf] at hv
    simp at hv
    rcases mem_saveUser hv with rfl | ⟨hv2, hne⟩
    · exact ⟨rfl, rfl⟩
    · exact absurd hvid hne
  · intro db now r e u he hf v hv hvid
    simp only [sendVerificationOTP, he, hf] at hv
    simp at hv
    rcases mem_saveUser hv with rfl | ⟨hv2, hne⟩
    · exact ⟨rfl, rfl⟩
    · exact absurd hvid hne
  · intro sign matchPW db now r e p u he hp hf hpw hver
    have hL : (login sign matchPW db now r false (some e) (some p)).1 =
        saveUser db { u with emailVerificationOTP := some (genOTP r),
                             emailVerificationExpire := some (now + 10 * 60 * 1000) } := by
      simp [login, he, hp, hf, hpw, hver, MS_10MIN]
    rw [hL]
    exact mem_saveUser_self (mem_of_findByEmail hf) rfl

/-- Closed instance of claim4_transient_fields: one register step from
the empty collection lands in a collection whose users all satisfy the
pairing. -/
theorem claim4_witness :
    AllPaired (register csign [] 0 0 true "Eve" "eve@x.com" "pw").1 :=
  claim4_transient_fields.1 []
    (register csign [] 0 0 true "Eve" "eve@x.com" "pw").1
    (fun u hu => absurd hu (List.not_mem_nil u))
    (Relation.ReflTransGen.single
      (Step.ofRegister csign [] 0 0 true "Eve" "eve@x.com" "pw"))
